import Mathlib

/-!
Verification of `ancient_book_reader.py`, a PyQt PDF reader with an
asynchronous page-render worker (`PDFRenderThread`) and a file-management
dialog (`FileListDialog`).

The Python code is shallowly embedded:

* the render thread's state is a list of queued items (front = next to be
  dequeued) plus the `running` flag; `queue.Queue` items are
  `Option RenderTask`, with `none` standing for the Python `None` sentinel;
* the worker loop `PDFRenderThread.run` is modelled as a function over the
  finite sequence of outcomes of `queue.get(timeout=0.05)` (a timeout, a
  sentinel, or a task); the external rasterizer (`page.get_pixmap` together
  with the `tobytes`/`QImage`/`QPixmap` conversions) is an oracle
  `RenderTask → ℚ → Option Nat` returning `none` when any of those calls
  raises; the completion callback is modelled by the trace of `RenderResult`
  values passed to it, with an oracle `RenderResult → Bool` telling whether
  the callback itself raises on a given invocation;
* Python float arithmetic on page geometry is modelled by ℚ;
* filesystem effects (`os.remove`, `os.path.abspath`, `glob`, `getmtime`)
  are oracles or explicit directory listings.
-/

/-- A render task, the tuple `(page_num, page, target_size, callback)` of
`PDFRenderThread.add_task`.  The `page` handle is represented by its
`page.rect` dimensions (`pageW`, `pageH`), read by the worker at lines
35-37; `target_size` is `(targetW, targetH)`.  The callback is not stored:
all tasks report to the single callback modelled by the worker's trace. -/
structure RenderTask where
  page_num : Nat
  pageW : ℚ
  pageH : ℚ
  targetW : ℚ
  targetH : ℚ
  deriving DecidableEq, Repr

/-- A queue item: `some t` is a real task, `none` is the `None` sentinel
enqueued by `stop`. -/
abbrev QItem := Option RenderTask

/-- The page number of a queued item, `item[0]` in the Python tuple
(`none` for the sentinel, on which the Python code never reads `item[0]`). -/
def taskPage : QItem → Option Nat
  | none => none
  | some t => some t.page_num

/-- State of `PDFRenderThread`: its `queue.Queue` contents (front of the
list = next item `get` returns) and the `running` flag. -/
structure PDFRenderThread where
  queue : List QItem
  running : Bool
  deriving Repr

/-- Outcome of a call to `PDFRenderThread.add_task`: either the call
returns with the thread in the given state, or it hangs forever
(a self-deadlock), with the given state observable at the hang. -/
inductive AddTaskResult where
  | ok : PDFRenderThread → AddTaskResult
  | deadlock : PDFRenderThread → AddTaskResult
  deriving Repr

/-- `PDFRenderThread.add_task` (lines 70-86).  If `running` is clear the
call returns without touching the queue.  Otherwise the dedup pass runs
under `with self.queue.mutex:` (line 74): it snapshots the queue, filters
out every task whose page equals `page_num`, and clears the queue
(lines 76-80).  The re-put loop at lines 82-83 then calls
`self.queue.put(item)` for each survivor — but `queue.Queue.put` enters
`with self.not_full:`, and `not_full` is a `threading.Condition` built on
that same `queue.mutex`, a non-reentrant `threading.Lock` the caller
already holds.  So the first surviving item deadlocks the caller: the
survivors are never restored, the appending `put` at line 86 is never
reached, and at the hang the queue is the cleared (empty) queue.  Only
when no item survives the filter does the `with` block exit and the put
at line 86 append the new task, leaving it as the sole queue entry.
(A queued sentinel would make line 78 raise a `TypeError` on `None[0]`;
that state is unreachable here, since `stop` clears `running` before
enqueuing the sentinel.) -/
def add_task (s : PDFRenderThread) (t : RenderTask) : AddTaskResult :=
  if s.running then
    match s.queue.filter (fun it => taskPage it ≠ some t.page_num) with
    | [] => AddTaskResult.ok { s with queue := [some t] }
    | _ :: _ => AddTaskResult.deadlock { s with queue := [] }
  else AddTaskResult.ok s

/-- `PDFRenderThread.stop` (lines 88-90): clear `running` and enqueue the
`None` sentinel. -/
def stop (s : PDFRenderThread) : PDFRenderThread :=
  { queue := s.queue ++ [none], running := false }

/-- The result tuple passed to a task's callback:
`(page_num, pixmap, scale, original_width, original_height)` at line 59 on
success, `(page_num, None, 0, 0, 0)` at line 63 on failure.  The pixmap is
abstracted to a `Nat` identifier. -/
structure RenderResult where
  page_num : Nat
  pixmap : Option Nat
  scale : ℚ
  original_width : ℚ
  original_height : ℚ
  deriving DecidableEq, Repr

/-- The failure result `(page_num, None, 0, 0, 0)` of line 63. -/
def nullResult (page_num : Nat) : RenderResult :=
  { page_num := page_num, pixmap := none, scale := 0
    original_width := 0, original_height := 0 }

/-- The scale computation of `PDFRenderThread.run`, lines 40-45:
`width_ratio = target_width / original_width`,
`height_ratio = target_height / original_height`,
`scale = min(width_ratio, height_ratio)`. -/
def computeScale (t : RenderTask) : ℚ :=
  let width_ratio := t.targetW / t.pageW
  let height_ratio := t.targetH / t.pageH
  min width_ratio height_ratio

/-- Processing of one dequeued task, the inner `try` block of
`PDFRenderThread.run` (lines 33-63), as the list of callback invocations it
performs.  `render` is the rasterization oracle (lines 48-56): it receives
the scale the worker passes to `fitz.Matrix(scale, scale)` and returns
`none` when any call of the pipeline raises.  `cbThrows` tells whether the
callback itself raises on a given invocation: the success callback at
line 59 sits inside the `try`, so if it raises the handler at lines 61-63
invokes the callback a second time with the null result.  A zero page
dimension makes the division at line 43/44 raise `ZeroDivisionError`,
likewise caught at line 61. -/
def processTask (render : RenderTask → ℚ → Option Nat)
    (cbThrows : RenderResult → Bool) (t : RenderTask) : List RenderResult :=
  if t.pageW = 0 ∨ t.pageH = 0 then
    [nullResult t.page_num]
  else
    let scale := computeScale t
    match render t scale with
    | none => [nullResult t.page_num]
    | some bmp =>
        let r : RenderResult :=
          { page_num := t.page_num, pixmap := some bmp, scale := scale
            original_width := t.pageW, original_height := t.pageH }
        if cbThrows r then [r, nullResult t.page_num] else [r]

/-- One observed outcome of `self.queue.get(timeout=0.05)` at line 28:
either the timeout fired (`queue.Empty`, line 65) or an item was returned. -/
inductive Fetch where
  | timeout : Fetch
  | item : QItem → Fetch
  deriving Repr

/-- The worker loop `PDFRenderThread.run` (lines 25-68) over a finite
sequence of `get` outcomes, returning the trace of callback invocations:
a timeout continues the loop (lines 65-66), the `None` sentinel breaks it
(lines 29-30), a task is processed by `processTask`.  An exception escaping
the inner `try` (a callback that raises on the null invocation) is caught
by the outer handler at lines 67-68, which only prints, so the loop always
continues after a task. -/
def runWorker (render : RenderTask → ℚ → Option Nat)
    (cbThrows : RenderResult → Bool) : List Fetch → List RenderResult
  | [] => []
  | Fetch.timeout :: rest => runWorker render cbThrows rest
  | Fetch.item none :: _ => []
  | Fetch.item (some t) :: rest =>
      processTask render cbThrows t ++ runWorker render cbThrows rest

/-- The non-sentinel tasks the loop dequeues from a sequence of `get`
outcomes: everything up to (excluding) the first sentinel. -/
def dequeuedTasks : List Fetch → List RenderTask
  | [] => []
  | Fetch.timeout :: rest => dequeuedTasks rest
  | Fetch.item none :: _ => []
  | Fetch.item (some t) :: rest => t :: dequeuedTasks rest

theorem runWorker_eq_flatMap (render : RenderTask → ℚ → Option Nat)
    (cbThrows : RenderResult → Bool) (fs : List Fetch) :
    runWorker render cbThrows fs
      = (dequeuedTasks fs).flatMap (processTask render cbThrows) := by
  induction fs with
  | nil => rfl
  | cons f rest ih =>
      cases f with
      | timeout => simpa [runWorker, dequeuedTasks] using ih
      | item it =>
          cases it with
          | none => rfl
          | some t => simp [runWorker, dequeuedTasks, List.flatMap_cons, ih]

/-! ### `FileListDialog` -/

/-- A selected list item, carrying `item.data(Qt.UserRole)` (the file path)
and `item.data(Qt.UserRole + 1)` (the file name), as stored at
lines 203-204. -/
structure FileItem where
  path : String
  name : String
  deriving DecidableEq, Repr

/-- Mutable state touched by the deletion loop of
`FileListDialog.delete_selected_files` (lines 246-265):
`self.parent.reading_positions` (a dict from absolute file path to
last-viewed page index, modelled as an association list with unique keys),
`deleted_count` and `failed_files`. -/
structure DelState where
  reading_positions : List (String × Nat)
  deleted_count : Nat
  failed_files : List String
  deriving DecidableEq, Repr

/-- The loop body of `delete_selected_files` for one selected item
(lines 249-265).  `removeOk` is the oracle for `os.remove` succeeding on a
path, `errMsg` for `str(e)` of the raised exception, `absPath` for
`os.path.abspath`.  On success the reading-position entry for the file's
absolute path is deleted when present (lines 255-258) and
`deleted_count` is incremented; on failure `"name: err"` is appended to
`failed_files` (line 264). -/
def delete_one (removeOk : String → Bool) (errMsg : String → String)
    (absPath : String → String) (st : DelState) (item : FileItem) : DelState :=
  if removeOk item.path then
    let file_key := absPath item.path
    let positions :=
      if (st.reading_positions.lookup file_key).isSome then
        st.reading_positions.filter (fun p => p.1 ≠ file_key)
      else st.reading_positions
    { reading_positions := positions
      deleted_count := st.deleted_count + 1
      failed_files := st.failed_files }
  else
    { st with failed_files := st.failed_files ++ [item.name ++ ": " ++ errMsg item.path] }

/-- The deletion loop of `delete_selected_files` over the selected items
(lines 249-265), after the user confirmed. -/
def delete_selected_files (removeOk : String → Bool) (errMsg : String → String)
    (absPath : String → String) (items : List FileItem) (st : DelState) : DelState :=
  items.foldl (delete_one removeOk errMsg absPath) st

/-- The single message box shown after the deletion loop:
`QMessageBox.warning` with the aggregate text (lines 267-270) when some
deletion failed, `QMessageBox.information` (line 272) otherwise. -/
inductive DeleteReport where
  | warning : String → DeleteReport
  | information : String → DeleteReport
  deriving DecidableEq, Repr

/-- The aggregate failure message built at lines 268-269. -/
def aggregateMsg (st : DelState) : String :=
  "成功删除 " ++ toString st.deleted_count ++ " 个文件，失败 "
    ++ toString st.failed_files.length ++ " 个:\n"
    ++ String.intercalate "\n" st.failed_files

/-- The reporting step at lines 267-272. -/
def delete_report (st : DelState) : DeleteReport :=
  if st.failed_files.isEmpty then
    DeleteReport.information ("已成功删除 " ++ toString st.deleted_count ++ " 个文件")
  else
    DeleteReport.warning (aggregateMsg st)

/-- A directory entry seen by `scan_pdf_files`: a file name and its
`os.path.getmtime` value (modelled as a natural number of time units). -/
structure DirEntry where
  name : String
  mtime : Nat
  deriving DecidableEq, Repr

/-- `FileListDialog.scan_pdf_files` (lines 209-218): `glob` the fixed
directory for `"*.pdf"` and sort by modification time, newest first
(`sort(key=os.path.getmtime, reverse=True)`, a stable descending sort). -/
def scan_pdf_files (entries : List DirEntry) : List DirEntry :=
  let pdf_files := entries.filter (fun e => e.name.endsWith ".pdf")
  pdf_files.mergeSort (fun a b => decide (b.mtime ≤ a.mtime))

/-- Outcome of `FileListDialog.open_selected_file`. -/
inductive OpenOutcome where
  | warning : String → OpenOutcome
  | opened : String → OpenOutcome
  deriving DecidableEq, Repr

/-- `FileListDialog.open_selected_file` (lines 220-229): with no selection,
show a warning and return (lines 223-225); otherwise load
`selected_items[0].data(Qt.UserRole)` (lines 227-229). -/
def open_selected_file (selected_items : List FileItem) : OpenOutcome :=
  match selected_items with
  | [] => OpenOutcome.warning "请先选择要打开的文件"
  | first :: _ => OpenOutcome.opened first.path

/-! ### Queue claims -/

/-- Claim C1, failing input: a running thread whose queue holds an older
task for page 2 together with a task for page 1; a new task for page 2 is
submitted.  The page-1 task survives the dedup filter, so the re-put at
line 83 self-deadlocks under the held `queue.mutex` with the queue already
cleared: the submission never completes, and zero tasks for page 2 remain
queued — not exactly one newest one, as the claim states. -/
theorem claim_C1_deadlock_on_other_pages :
    add_task (PDFRenderThread.mk
        [some (RenderTask.mk 1 2 2 9 9), some (RenderTask.mk 2 4 4 5 5)] true)
        (RenderTask.mk 2 6 6 3 3)
      = AddTaskResult.deadlock (PDFRenderThread.mk [] true) ∧
    ((PDFRenderThread.mk ([] : List QItem) true).queue.filter
        fun it => taskPage it = some 2) = [] := by
  exact ⟨rfl, rfl⟩

/-- Claim C5, failing input: a running thread whose queue holds a task for
page 3 and an older task for page 7; a new task for page 7 is submitted.
The page-3 task survives the dedup filter, so `add_task` self-deadlocks at
line 83 with the queue already cleared: the surviving other-page task is
never re-added and the new task is never appended, so the pending tasks
for pages other than 7 are lost instead of being preserved in order. -/
theorem claim_C5_deadlock_loses_other_pages :
    add_task (PDFRenderThread.mk
        [some (RenderTask.mk 3 2 2 9 9), some (RenderTask.mk 7 4 4 5 5)] true)
        (RenderTask.mk 7 6 6 3 3)
      = AddTaskResult.deadlock (PDFRenderThread.mk [] true) ∧
    ((PDFRenderThread.mk ([] : List QItem) true).queue.filter
        fun it => taskPage it ≠ some 7)
      ≠ ((PDFRenderThread.mk
          [some (RenderTask.mk 3 2 2 9 9), some (RenderTask.mk 7 4 4 5 5)]
          true).queue.filter fun it => taskPage it ≠ some 7) := by
  refine ⟨rfl, ?_⟩
  decide

/-- Claim C4: the worker loop terminates when it dequeues the `None`
sentinel — `get` outcomes after the sentinel are never processed, wherever
the sentinel sits in the sequence — and after `stop()` the thread's
`running` flag is cleared so that every subsequent `add_task` call leaves
the thread state, in particular its task queue, unchanged. -/
theorem claim_C4_sentinel_and_stop :
    (∀ (render : RenderTask → ℚ → Option Nat) (cbThrows : RenderResult → Bool)
        (fs₁ fs₂ : List Fetch),
      runWorker render cbThrows (fs₁ ++ Fetch.item none :: fs₂)
        = runWorker render cbThrows (fs₁ ++ [Fetch.item none])) ∧
    (∀ (s : PDFRenderThread) (t : RenderTask),
      add_task (stop s) t = AddTaskResult.ok (stop s)) := by
  constructor
  · intro render cbThrows fs₁ fs₂
    induction fs₁ with
    | nil => rfl
    | cons f rest ih =>
        cases f with
        | timeout => simpa [runWorker] using ih
        | item it =>
            cases it with
            | none => rfl
            | some t => simp [runWorker, ih]
  · intro s t
    simp [add_task, stop]

theorem processTask_of_render_none (render : RenderTask → ℚ → Option Nat)
    (cbThrows : RenderResult → Bool) (t : RenderTask)
    (hfail : render t (computeScale t) = none) :
    processTask render cbThrows t = [nullResult t.page_num] := by
  unfold processTask
  split
  · rfl
  · simp only [hfail]

/-- Claim C2: for a task whose original page dimensions are positive, the
scale factor the worker computes — and passes to `fitz.Matrix` and, on a
successful render, to the callback together with the bitmap and the
original dimensions — equals `min(target_width / original_width,
target_height / original_height)`. -/
theorem claim_C2_scale_is_min (render : RenderTask → ℚ → Option Nat)
    (cbThrows : RenderResult → Bool) (t : RenderTask)
    (hw : 0 < t.pageW) (hh : 0 < t.pageH) :
    computeScale t = min (t.targetW / t.pageW) (t.targetH / t.pageH) ∧
    ∀ bmp, render t (computeScale t) = some bmp →
      (processTask render cbThrows t).head?
        = some (RenderResult.mk t.page_num (some bmp)
            (min (t.targetW / t.pageW) (t.targetH / t.pageH)) t.pageW t.pageH) := by
  refine ⟨rfl, ?_⟩
  intro bmp hbmp
  unfold processTask
  rw [if_neg (by push_neg; exact ⟨ne_of_gt hw, ne_of_gt hh⟩)]
  simp only [hbmp]
  split <;> rfl

theorem claim_C2_witness :
    (0 : ℚ) < (RenderTask.mk 0 2 4 8 8).pageW ∧
    (0 : ℚ) < (RenderTask.mk 0 2 4 8 8).pageH ∧
    computeScale (RenderTask.mk 0 2 4 8 8) = 2 ∧
    (processTask (fun _ _ => some 7) (fun _ => false) (RenderTask.mk 0 2 4 8 8)).head?
      = some (RenderResult.mk 0 (some 7) 2 2 4) := by
  have h := claim_C2_scale_is_min (fun _ _ => some 7) (fun _ => false)
    (RenderTask.mk 0 2 4 8 8) (by norm_num) (by norm_num)
  refine ⟨by norm_num, by norm_num, ?_, ?_⟩
  · rw [h.1]; norm_num
  · have h2 := h.2 7 rfl
    rw [h2]
    norm_num

/-- Claim C3: when rendering a task fails, the worker invokes the callback
once with a null bitmap and zero scale, width and height, and the loop does
not terminate: the remaining `get` outcomes are still processed, so a
subsequent valid task still produces its own callback invocations. -/
theorem claim_C3_failure_nonfatal (render : RenderTask → ℚ → Option Nat)
    (cbThrows : RenderResult → Bool) (t : RenderTask) (fs : List Fetch)
    (hfail : render t (computeScale t) = none) :
    runWorker render cbThrows (Fetch.item (some t) :: fs)
        = nullResult t.page_num :: runWorker render cbThrows fs ∧
    (nullResult t.page_num).pixmap = none ∧
    (nullResult t.page_num).scale = 0 ∧
    (nullResult t.page_num).original_width = 0 ∧
    (nullResult t.page_num).original_height = 0 ∧
    ∀ t' : RenderTask,
      runWorker render cbThrows (Fetch.item (some t) :: Fetch.item (some t') :: [])
        = nullResult t.page_num :: processTask render cbThrows t' := by
  refine ⟨?_, rfl, rfl, rfl, rfl, ?_⟩
  · rw [runWorker, processTask_of_render_none render cbThrows t hfail]
    rfl
  · intro t'
    rw [runWorker, processTask_of_render_none render cbThrows t hfail]
    simp [runWorker]

theorem claim_C3_witness :
    (fun (_ : RenderTask) (_ : ℚ) => (none : Option Nat)) (RenderTask.mk 4 1 1 1 1)
        (computeScale (RenderTask.mk 4 1 1 1 1)) = none ∧
    runWorker (fun _ _ => none) (fun _ => false)
        [Fetch.item (some (RenderTask.mk 4 1 1 1 1)),
         Fetch.item (some (RenderTask.mk 9 1 1 1 1))]
      = [nullResult 4, RenderResult.mk 9 none 0 0 0,
         RenderResult.mk 9 (some 0) 1 1 1] ∨
    runWorker (fun _ _ => none) (fun _ => false)
        [Fetch.item (some (RenderTask.mk 4 1 1 1 1)),
         Fetch.item (some (RenderTask.mk 9 1 1 1 1))]
      = [nullResult 4, nullResult 9] := by
  right
  have h := claim_C3_failure_nonfatal (fun _ _ => none) (fun _ => false)
    (RenderTask.mk 4 1 1 1 1) [Fetch.item (some (RenderTask.mk 9 1 1 1 1))] rfl
  rw [h.2.2.2.2.2 (RenderTask.mk 9 1 1 1 1)]
  rw [processTask_of_render_none _ _ _ rfl]

/-- Claim C6, counterexample: the success callback at line 59 sits inside
the `try` block, so a callback that raises after receiving the successful
result is invoked a second time, with the null result, by the handler at
lines 61-63.  Here one dequeued task (page 3, unit square page and target,
rasterizer returning bitmap 0) yields two callback invocations. -/
theorem claim_C6_counterexample :
    (dequeuedTasks [Fetch.item (some (RenderTask.mk 3 1 1 1 1))]).length = 1 ∧
    runWorker (fun _ _ => some 0) (fun r => r.pixmap.isSome)
        [Fetch.item (some (RenderTask.mk 3 1 1 1 1))]
      = [RenderResult.mk 3 (some 0) 1 1 1, nullResult 3] := by
  constructor
  · rfl
  · norm_num [runWorker, processTask, computeScale, nullResult]

/-- Claim C6 as amended: provided the completion callback itself does not
raise, every non-sentinel task the worker dequeues leads to exactly one
callback invocation — on success with the bitmap, on failure with the null
result — and the whole trace is the per-task invocations in dequeue
order. -/
theorem claim_C6_amended_exactly_once (render : RenderTask → ℚ → Option Nat)
    (cbThrows : RenderResult → Bool) (fs : List Fetch)
    (hcb : ∀ r, cbThrows r = false) :
    (∀ t : RenderTask, (processTask render cbThrows t).length = 1) ∧
    runWorker render cbThrows fs
      = (dequeuedTasks fs).flatMap (processTask render cbThrows) ∧
    (runWorker render cbThrows fs).length = (dequeuedTasks fs).length := by
  have hone : ∀ t : RenderTask, (processTask render cbThrows t).length = 1 := by
    intro t
    simp only [processTask]
    split
    · rfl
    · cases hr : render t (computeScale t) with
      | none => simp [hr]
      | some bmp => simp [hr, hcb]
  refine ⟨hone, runWorker_eq_flatMap render cbThrows fs, ?_⟩
  rw [runWorker_eq_flatMap]
  induction dequeuedTasks fs with
  | nil => rfl
  | cons t ts ih =>
      simp only [List.flatMap_cons, List.length_append, List.length_cons, hone t, ih]
      omega

theorem claim_C6_witness :
    (∀ r : RenderResult, (fun _ : RenderResult => false) r = false) ∧
    (runWorker (fun _ _ => some 5) (fun _ : RenderResult => false)
        [Fetch.item (some (RenderTask.mk 3 1 1 1 1)), Fetch.timeout,
         Fetch.item (some (RenderTask.mk 8 1 1 1 1))]).length
      = (dequeuedTasks
          [Fetch.item (some (RenderTask.mk 3 1 1 1 1)), Fetch.timeout,
           Fetch.item (some (RenderTask.mk 8 1 1 1 1))]).length :=
  ⟨fun _ => rfl,
   (claim_C6_amended_exactly_once (fun _ _ => some 5) (fun _ => false)
      [Fetch.item (some (RenderTask.mk 3 1 1 1 1)), Fetch.timeout,
       Fetch.item (some (RenderTask.mk 8 1 1 1 1))] (fun _ => rfl)).2.2⟩

/-! ### Dialog claims -/

theorem lookup_filter_key_self (l : List (String × Nat)) (k : String) :
    ((l.filter fun p => p.1 ≠ k).lookup k) = none := by
  rw [List.lookup_eq_none_iff]
  intro p hp
  have h := List.of_mem_filter hp
  simp at h ⊢
  exact fun hc => h hc.symm

theorem lookup_filter_key_other (l : List (String × Nat)) (k k' : String)
    (hne : k' ≠ k) :
    ((l.filter fun p => p.1 ≠ k).lookup k') = l.lookup k' := by
  induction l with
  | nil => rfl
  | cons p l ih =>
      obtain ⟨a, b⟩ := p
      by_cases h : a = k
      · subst h
        simp [List.filter_cons, List.lookup_cons, beq_eq_decide, hne]
        simpa using ih
      · by_cases h2 : k' = a
        · subst h2
          simp [List.filter_cons, List.lookup_cons, beq_eq_decide, h]
        · simp [List.filter_cons, List.lookup_cons, beq_eq_decide, h, h2]
          simpa using ih

/-- Claim C7: when `os.remove` succeeds for a selected file, the
reading-positions mapping afterwards has no entry for that file's absolute
path (whether or not it had one before), and the entry of every other path
is unchanged. -/
theorem claim_C7_delete_removes_position (removeOk : String → Bool)
    (errMsg : String → String) (absPath : String → String)
    (st : DelState) (item : FileItem) (hok : removeOk item.path = true) :
    ((delete_one removeOk errMsg absPath st item).reading_positions.lookup
        (absPath item.path)) = none ∧
    ∀ k, k ≠ absPath item.path →
      ((delete_one removeOk errMsg absPath st item).reading_positions.lookup k)
        = st.reading_positions.lookup k := by
  constructor
  · simp only [delete_one, hok, if_true]
    split
    · exact lookup_filter_key_self _ _
    · rename_i hmem
      exact Option.not_isSome_iff_eq_none.mp hmem
  · intro k hk
    simp only [delete_one, hok, if_true]
    split
    · exact lookup_filter_key_other _ _ _ hk
    · rfl

theorem claim_C7_witness :
    (fun _ : String => true) "/books/a.pdf" = true ∧
    ((delete_one (fun _ => true) (fun _ => "gone") (fun p => p)
        (DelState.mk [("/books/a.pdf", 3), ("/books/b.pdf", 7)] 0 [])
        (FileItem.mk "/books/a.pdf" "a.pdf")).reading_positions.lookup
          "/books/a.pdf") = none ∧
    ((delete_one (fun _ => true) (fun _ => "gone") (fun p => p)
        (DelState.mk [("/books/a.pdf", 3), ("/books/b.pdf", 7)] 0 [])
        (FileItem.mk "/books/a.pdf" "a.pdf")).reading_positions.lookup
          "/books/b.pdf") = some 7 := by
  refine ⟨rfl, ?_, ?_⟩
  · exact (claim_C7_delete_removes_position (fun _ => true) (fun _ => "gone")
      (fun p => p) (DelState.mk [("/books/a.pdf", 3), ("/books/b.pdf", 7)] 0 [])
      (FileItem.mk "/books/a.pdf" "a.pdf") rfl).1
  · rw [(claim_C7_delete_removes_position (fun _ => true) (fun _ => "gone")
      (fun p => p) (DelState.mk [("/books/a.pdf", 3), ("/books/b.pdf", 7)] 0 [])
      (FileItem.mk "/books/a.pdf" "a.pdf") rfl).2 "/books/b.pdf" (by decide)]
    rfl

theorem delete_one_failed_files (removeOk : String → Bool)
    (errMsg : String → String) (absPath : String → String)
    (st : DelState) (item : FileItem) :
    (delete_one removeOk errMsg absPath st item).failed_files
      = if removeOk item.path then st.failed_files
        else st.failed_files ++ [item.name ++ ": " ++ errMsg item.path] := by
  unfold delete_one
  split <;> rfl

theorem delete_one_deleted_count (removeOk : String → Bool)
    (errMsg : String → String) (absPath : String → String)
    (st : DelState) (item : FileItem) :
    (delete_one removeOk errMsg absPath st item).deleted_count
      = if removeOk item.path then st.deleted_count + 1
        else st.deleted_count := by
  unfold delete_one
  split <;> rfl

theorem delete_loop_spec (removeOk : String → Bool) (errMsg : String → String)
    (absPath : String → String) (items : List FileItem) (st0 : DelState) :
    (delete_selected_files removeOk errMsg absPath items st0).failed_files
      = st0.failed_files ++ (items.filter fun it => !removeOk it.path).map
          (fun it => it.name ++ ": " ++ errMsg it.path) ∧
    (delete_selected_files removeOk errMsg absPath items st0).deleted_count
      = st0.deleted_count + (items.filter fun it => removeOk it.path).length := by
  induction items generalizing st0 with
  | nil => simp [delete_selected_files]
  | cons it items ih =>
      have hstep : delete_selected_files removeOk errMsg absPath (it :: items) st0
          = delete_selected_files removeOk errMsg absPath items
              (delete_one removeOk errMsg absPath st0 it) := rfl
      rw [hstep]
      obtain ⟨ih1, ih2⟩ := ih (delete_one removeOk errMsg absPath st0 it)
      constructor
      · rw [ih1, delete_one_failed_files]
        by_cases h : removeOk it.path
        · simp [h, List.filter_cons]
        · simp [h, List.filter_cons]
      · rw [ih2, delete_one_deleted_count]
        by_cases h : removeOk it.path
        · simp [h, List.filter_cons]
          omega
        · simp [h, List.filter_cons]

theorem length_filter_bool_split (p : FileItem → Bool) (l : List FileItem) :
    (l.filter p).length + (l.filter fun a => !p a).length = l.length := by
  induction l with
  | nil => rfl
  | cons a l ih =>
      by_cases h : p a
      · simp [List.filter_cons, h]
        omega
      · simp [List.filter_cons, h]
        omega

/-- Claim C8: the deletion loop attempts every selected file even after
failures — the successful and failed counts always sum to the number of
selected items — collects every failure (in order) into `failed_files`,
and reports all failures together in one aggregate warning message instead
of raising; with no failure a single success message is shown. -/
theorem claim_C8_failures_aggregated (removeOk : String → Bool)
    (errMsg : String → String) (absPath : String → String)
    (items : List FileItem) (ps : List (String × Nat)) :
    (delete_selected_files removeOk errMsg absPath items
        (DelState.mk ps 0 [])).failed_files
      = (items.filter fun it => !removeOk it.path).map
          (fun it => it.name ++ ": " ++ errMsg it.path) ∧
    (delete_selected_files removeOk errMsg absPath items
        (DelState.mk ps 0 [])).deleted_count
      = (items.filter fun it => removeOk it.path).length ∧
    (delete_selected_files removeOk errMsg absPath items
        (DelState.mk ps 0 [])).deleted_count
      + (delete_selected_files removeOk errMsg absPath items
          (DelState.mk ps 0 [])).failed_files.length
      = items.length ∧
    ((delete_selected_files removeOk errMsg absPath items
        (DelState.mk ps 0 [])).failed_files ≠ [] →
      delete_report (delete_selected_files removeOk errMsg absPath items
        (DelState.mk ps 0 []))
        = DeleteReport.warning (aggregateMsg (delete_selected_files removeOk
            errMsg absPath items (DelState.mk ps 0 [])))) ∧
    ((delete_selected_files removeOk errMsg absPath items
        (DelState.mk ps 0 [])).failed_files = [] →
      delete_report (delete_selected_files removeOk errMsg absPath items
        (DelState.mk ps 0 []))
        = DeleteReport.information ("已成功删除 "
            ++ toString (delete_selected_files removeOk errMsg absPath items
                (DelState.mk ps 0 [])).deleted_count ++ " 个文件")) := by
  obtain ⟨h1, h2⟩ := delete_loop_spec removeOk errMsg absPath items (DelState.mk ps 0 [])
  simp only [List.nil_append] at h1
  have h2a : (delete_selected_files removeOk errMsg absPath items
      (DelState.mk ps 0 [])).deleted_count
        = (items.filter fun it => removeOk it.path).length := by
    simpa using h2
  refine ⟨h1, h2a, ?_, ?_, ?_⟩
  · rw [h1, h2a, List.length_map]
    exact length_filter_bool_split _ _
  · intro hne
    rw [delete_report, if_neg (by simpa [List.isEmpty_iff] using hne)]
  · intro heq
    rw [delete_report, if_pos (by simpa [List.isEmpty_iff] using heq)]

theorem claim_C8_witness :
    (delete_selected_files (fun p => p == "/ok.pdf") (fun _ => "err") (fun p => p)
        [FileItem.mk "/ok.pdf" "ok.pdf", FileItem.mk "/bad.pdf" "bad.pdf"]
        (DelState.mk [] 0 [])).failed_files = ["bad.pdf: err"] ∧
    (delete_selected_files (fun p => p == "/ok.pdf") (fun _ => "err") (fun p => p)
        [FileItem.mk "/ok.pdf" "ok.pdf", FileItem.mk "/bad.pdf" "bad.pdf"]
        (DelState.mk [] 0 [])).deleted_count = 1 ∧
    delete_report (delete_selected_files (fun p => p == "/ok.pdf") (fun _ => "err")
        (fun p => p)
        [FileItem.mk "/ok.pdf" "ok.pdf", FileItem.mk "/bad.pdf" "bad.pdf"]
        (DelState.mk [] 0 []))
      = DeleteReport.warning (aggregateMsg (delete_selected_files
          (fun p => p == "/ok.pdf") (fun _ => "err") (fun p => p)
          [FileItem.mk "/ok.pdf" "ok.pdf", FileItem.mk "/bad.pdf" "bad.pdf"]
          (DelState.mk [] 0 []))) := by
  have h := claim_C8_failures_aggregated (fun p => p == "/ok.pdf") (fun _ => "err")
    (fun p => p) [FileItem.mk "/ok.pdf" "ok.pdf", FileItem.mk "/bad.pdf" "bad.pdf"] []
  refine ⟨by rw [h.1]; rfl, by rw [h.2.1]; rfl, h.2.2.2.1 ?_⟩
  rw [h.1]
  decide

/-- Claim C9: the scan returns exactly the `.pdf` files of the fixed
directory (the same multiset as the `"*.pdf"` matches), ordered by
modification time, newest first. -/
theorem claim_C9_scan_exact_and_sorted (entries : List DirEntry) :
    (scan_pdf_files entries).Perm
        (entries.filter fun e => e.name.endsWith ".pdf") ∧
    (scan_pdf_files entries).Pairwise (fun a b => b.mtime ≤ a.mtime) := by
  constructor
  · simp only [scan_pdf_files]
    exact List.mergeSort_perm _ _
  · simp only [scan_pdf_files]
    have h := @List.sorted_mergeSort DirEntry
      (fun a b => decide (b.mtime ≤ a.mtime))
      (fun a b c h1 h2 => by
        simp only [decide_eq_true_eq] at h1 h2 ⊢
        omega)
      (fun a b => by
        simp only [Bool.or_eq_true, decide_eq_true_eq]
        omega)
      (entries.filter fun e => e.name.endsWith ".pdf")
    exact h.imp (fun hab => by simpa using hab)

/-- Claim C10: with a non-empty selection the open action loads only the
first selected item — the outcome does not depend on the remaining
selection — and with an empty selection it shows a warning and opens
nothing. -/
theorem claim_C10_open_first_only :
    open_selected_file [] = OpenOutcome.warning "请先选择要打开的文件" ∧
    (∀ (x : FileItem) (xs : List FileItem),
      open_selected_file (x :: xs) = OpenOutcome.opened x.path) ∧
    (∀ (x : FileItem) (xs ys : List FileItem),
      open_selected_file (x :: xs) = open_selected_file (x :: ys)) :=
  ⟨rfl, fun _ _ => rfl, fun _ _ _ => rfl⟩
